import Mathlib

/-!
# Verification of the HealthcareCM case-management core

Shallow embedding of the core logic of the HealthcareCM dashboard:
the case store gateway (`get_all_cases`, `update_case_status`), the case
filter (`filter_cases`, `_case_matches_search`), the metrics aggregator
(`get_case_metrics`), decimal normalization (`_convert_decimals`) and the
view-model helpers (`safe_get`, `format_timestamp`).

Python values flowing through these functions (records read from the
store) are modelled by the inductive type `Value`; records ("dicts") are
association lists with first-match lookup, which matches Python dict
semantics since Python keys are unique.  `Decimal` values are modelled as
exact rationals; `float` values are likewise carried as rationals (an
idealization: IEEE rounding is not modelled; every concrete numeral used
in a theorem below is exactly representable as a double).
-/

/-- A Python value as it occurs in case records: `None`, booleans,
integers, floats (idealized as exact rationals), arbitrary-precision
decimals (`decimal.Decimal`, exact rationals), strings, lists and
dicts (association lists, unique keys, insertion order). -/
inductive Value where
  | null : Value
  | bool : Bool → Value
  | int : Int → Value
  | float : ℚ → Value
  | decimal : ℚ → Value
  | str : String → Value
  | list : List Value → Value
  | dict : List (String × Value) → Value
deriving Repr

/-- A case record is a Python dict keyed by field name. -/
abbrev Case := List (String × Value)

/-- Python `d.get(key)`: first-match association-list lookup, `none` for a
missing key (Python returns `None`; the `Option` keeps "missing" apart
from a stored `None`, which `dict.get` cannot distinguish but none of the
embedded code needs to). -/
def pyGet : Case → String → Option Value
  | [], _ => none
  | (k, v) :: rest, key => if k == key then some v else pyGet rest key

/-- Python `d.get(key, default)`. -/
def pyGetD (d : Case) (key : String) (default : Value) : Value :=
  (pyGet d key).getD default

mutual
/-- Embedding of `CaseManager._convert_decimals` (case_utils.py): recursively convert
`Decimal` objects to `float` or `int`.  The Python test `obj % 1 != 0` is
nonzero exactly when the decimal has a nonzero fractional part, i.e. when
its value is not an integer (`q.den ≠ 1`); `int(obj)` on an integral
decimal is its exact integer value.  `convert_decimals` in app.py is the
same function with one extra branch turning Python sets into lists; sets
do not occur in `Value` (store records contain none), so the two coincide
on every embedded value. -/
def _convert_decimals : Value → Value
  | Value.decimal q => if q.den ≠ 1 then Value.float q else Value.int q.num
  | Value.dict kvs => Value.dict (convertPairs kvs)
  | Value.list xs => Value.list (convertList xs)
  | v => v

/-- The dict comprehension `{k: self._convert_decimals(v) for k, v in obj.items()}`. -/
def convertPairs : List (String × Value) → List (String × Value)
  | [] => []
  | (k, v) :: kvs => (k, _convert_decimals v) :: convertPairs kvs

/-- The list comprehension `[self._convert_decimals(v) for v in obj]`. -/
def convertList : List Value → List Value
  | [] => []
  | v :: vs => _convert_decimals v :: convertList vs
end

/-- The filter criteria dict built by the UI: `status`, `document_type`
and `priority` are lists of strings from multiselect widgets,
`search_term` is a string from a text input; each key may be absent. -/
structure Filters where
  status : Option (List String) := none
  document_type : Option (List String) := none
  priority : Option (List String) := none
  search_term : Option String := none

/-- Python truthiness of `filters.get(key)` for a list-valued criterion:
falsy when the key is absent (`None`) or the list is empty. -/
def pyTruthyStrList : Option (List String) → Bool
  | some l => !l.isEmpty
  | none => false

/-- Python truthiness of `filters.get('search_term')`: falsy when absent
or the empty string. -/
def pyTruthyStr : Option String → Bool
  | some s => !s.isEmpty
  | none => false

/-- Python `c.get(field) in allowed` where `allowed` is a list of strings:
a missing field (`None`) is in no string list, and a non-string value
compares unequal to every string. -/
def pyInStrList : Option Value → List String → Bool
  | some (Value.str s), l => l.any (fun x => x == s)
  | _, _ => false

/-- Python `c.get('status') == lit` for a string literal `lit`: `None` and
non-string values compare unequal to every string. -/
def pyEqStr : Option Value → String → Bool
  | some (Value.str t), s => t == s
  | _, _ => false

/-- Whether `needle` is a leading segment of `hay` (character lists). -/
def charsLeading : List Char → List Char → Bool
  | [], _ => true
  | _ :: _, [] => false
  | a :: as, b :: bs => a == b && charsLeading as bs

/-- Whether `needle` occurs contiguously inside `hay` (character lists). -/
def charsWithin (needle : List Char) : List Char → Bool
  | [] => needle.isEmpty
  | hay@(_ :: rest) => charsLeading needle hay || charsWithin needle rest

/-- Python `needle in hay` for strings: contiguous-substring test (the
empty needle is in every string). -/
def strContainsSub (hay needle : String) : Bool :=
  charsWithin needle.toList hay.toList

/-- Python `s.lower()`: ASCII lowercasing of every character (the two
languages agree on ASCII; the case data is ASCII). -/
def strToLower (s : String) : String := ⟨s.toList.map Char.toLower⟩

/-- Python `str(v)` for the values the embedded code passes to `str`:
strings are returned as-is, `None` and booleans use Python's spelling,
integers their decimal form.  The textual form of floats, decimals and
containers is approximated (this branch is never exercised: the searched
fields and the `format_timestamp` fallback operate on strings in the
data model, and none of the specified behaviour depends on it). -/
def pyStr : Value → String
  | Value.str s => s
  | Value.null => "None"
  | Value.bool true => "True"
  | Value.bool false => "False"
  | Value.int n => toString n
  | Value.float q => toString q
  | Value.decimal q => toString q
  | Value.list _ => "[...]"
  | Value.dict _ => "\x7b...\x7d"

/-- The fixed field list of `CaseManager._case_matches_search`. -/
def search_fields : List String :=
  ["patientName", "fileName", "documentType", "caseSummary", "diagnosisDescription"]

/-- Embedding of `CaseManager._case_matches_search` (case_utils.py): the case matches
when the (already lowercased) term occurs as a substring of
`str(case.get(field, '')).lower()` for any of the five search fields. -/
def _case_matches_search (case : Case) (search_term : String) : Bool :=
  search_fields.any (fun field =>
    strContainsSub (strToLower (pyStr (pyGetD case field (Value.str "")))) search_term)

/-- Embedding of `CaseManager.filter_cases` (case_utils.py): applies the four
independently-optional criteria in sequence, each one a Python
truthiness-guarded list comprehension over the running result. -/
def filter_cases (cases : List Case) (filters : Filters) : List Case :=
  let filtered := cases
  let filtered := if pyTruthyStrList filters.status then
      filtered.filter (fun c => pyInStrList (pyGet c "status") (filters.status.getD []))
    else filtered
  let filtered := if pyTruthyStrList filters.document_type then
      filtered.filter (fun c => pyInStrList (pyGet c "documentType") (filters.document_type.getD []))
    else filtered
  let filtered := if pyTruthyStrList filters.priority then
      filtered.filter (fun c => pyInStrList (pyGet c "priority") (filters.priority.getD []))
    else filtered
  let filtered := if pyTruthyStr filters.search_term then
      let search_term := strToLower (filters.search_term.getD "")
      filtered.filter (fun c => _case_matches_search c search_term)
    else filtered
  filtered

/-- The metrics record returned by `CaseManager.get_case_metrics`. -/
structure Metrics where
  total_cases : Nat
  pending_cases : Nat
  high_priority : Nat
  approved_cases : Nat
deriving Repr, DecidableEq

/-- Embedding of `CaseManager.get_case_metrics` (case_utils.py): `len` of the list and
of three list comprehensions selecting by `status`/`priority` equality. -/
def get_case_metrics (cases : List Case) : Metrics :=
  { total_cases := cases.length
    pending_cases := (cases.filter (fun c => pyEqStr (pyGet c "status") "PENDING_REVIEW")).length
    high_priority := (cases.filter (fun c => pyEqStr (pyGet c "priority") "HIGH")).length
    approved_cases := (cases.filter (fun c => pyEqStr (pyGet c "status") "APPROVED")).length }

/-- The `scan()` response of the backing store: DynamoDB returns a dict
whose `Items` entry, when present, is a list of raw case records.  Only
this entry is consulted by the gateway (`response.get('Items', [])`). -/
structure ScanResponse where
  items : Option (List Value)

/-- Embedding of `CaseManager.get_all_cases` (case_utils.py): the `try` block obtains
the table and scans it — modelled by an `Except` parameter carrying
either the scan response or the exception text raised by `get_table` /
`scan` (connectivity, missing table, permission error).  On success each
raw record is decimal-normalized; on any exception the handler logs
`"Error fetching cases: ..."` and returns `[]`.  The second component is
the list of log messages emitted. -/
def get_all_cases (scan : Except String ScanResponse) : List Value × List String :=
  match scan with
  | Except.ok response =>
    let cases := response.items.getD []
    (cases.map _convert_decimals, [])
  | Except.error e => ([], ["Error fetching cases: " ++ e])

/-- The backing store table: a list of case records (dicts keyed by
attribute name, primary key `caseID`). -/
structure Store where
  items : List Case

/-- Setting an attribute on a record: replace the value at the key when
present, append the pair otherwise (Python/DynamoDB map update). -/
def setAttr (item : Case) (key : String) (v : Value) : Case :=
  if (pyGet item key).isSome then
    item.map (fun kv => if kv.1 == key then (kv.1, v) else kv)
  else item ++ [(key, v)]

/-- Modelled from the DynamoDB contract (the store service is not part of
this repository): `update_item` with `Key={'caseID': id}` and
`UpdateExpression 'SET #status = :new_status'` and no condition
expression is an upsert — when an item with the key exists its `status`
attribute is set, otherwise a new item holding only the key and the
`status` attribute is created; the call succeeds in both cases. -/
def dynamoUpdateItemStatus (items : List Case) (case_id new_status : String) : List Case :=
  if items.any (fun it => pyEqStr (pyGet it "caseID") case_id) then
    items.map (fun it =>
      if pyEqStr (pyGet it "caseID") case_id then setAttr it "status" (Value.str new_status)
      else it)
  else
    items ++ [[("caseID", Value.str case_id), ("status", Value.str new_status)]]

/-- Embedding of `CaseManager.update_case_status` (case_utils.py): inside the `try`
block, `get_table` and the `update_item` call either go through —
modelled by `conn = none` — or raise with message `e` — modelled by
`conn = some e`.  On success the store is updated (upsert, see
`dynamoUpdateItemStatus`), `"Case <id> updated to <status>"` is logged
and `True` returned; on an exception the store is untouched,
`"Error updating case <id>: <e>"` is logged and `False` returned.
Result: (store after the call, returned boolean, log messages). -/
def update_case_status (store : Store) (conn : Option String)
    (case_id new_status : String) : Store × Bool × List String :=
  match conn with
  | none =>
    (⟨dynamoUpdateItemStatus store.items case_id new_status⟩, true,
      ["Case " ++ case_id ++ " updated to " ++ new_status])
  | some e =>
    (store, false, ["Error updating case " ++ case_id ++ ": " ++ e])

/-- Accumulator for the embedding of `key.split` on a dot: collect the current segment until the
next dot.  The result is never empty (`''.split('.') == ['']`). -/
def splitDotAux (cur : List Char) : List Char → List String
  | [] => [⟨cur.reverse⟩]
  | c :: rest =>
    if c == '.' then (⟨cur.reverse⟩ : String) :: splitDotAux [] rest
    else splitDotAux (c :: cur) rest

/-- Python `key.split('.')`. -/
def pySplitDot (s : String) : List String := splitDotAux [] s.toList

/-- The `for k in keys` loop of `safe_get` (app.py): descend one dict
level per path segment; when the current value is not a dict or lacks
the segment, the loop returns the default — modelled as `none`. -/
def lookupLoop : Value → List String → Option Value
  | current, [] => some current
  | current, k :: rest =>
    match current with
    | Value.dict kvs =>
      match pyGet kvs k with
      | some v => lookupLoop v rest
      | none => none
    | _ => none

/-- Embedding of `safe_get` (app.py): returns `default` when `data` is not a dict,
walks the dotted path, returns `default` when the walk falls off, and
otherwise returns `convert_decimals(current)` — except that a resolved
`None` also yields `default` (`... if current is not None else default`).
`convert_decimals` in app.py coincides with `_convert_decimals` on every
`Value` (see there). -/
def safe_get (data : Value) (key : String) (default : Value) : Value :=
  match data with
  | Value.dict _ =>
    match lookupLoop data (pySplitDot key) with
    | some Value.null => default
    | some current => _convert_decimals current
    | none => default
  | _ => default

/-- A wall-clock datetime as CPython's `datetime` carries it (the fields
`strftime('%Y-%m-%d %H:%M:%S')` reads; no timezone member is needed
because that format prints the wall-clock fields unconverted). -/
structure PyDateTime where
  year : Int
  month : Int
  day : Int
  hour : Int
  minute : Int
  second : Int
deriving Repr, DecidableEq

/-- Civil date from a count of days since 1970-01-01 (proleptic Gregorian
calendar, Howard Hinnant's `civil_from_days`, floor divisions). -/
def civilFromDays (z0 : Int) : Int × Int × Int :=
  let z := z0 + 719468
  let era := z.ediv 146097
  let doe := z - era * 146097
  let yoe := (doe - doe.ediv 1460 + doe.ediv 36524 - doe.ediv 146096).ediv 365
  let y := yoe + era * 400
  let doy := doe - (365 * yoe + yoe.ediv 4 - yoe.ediv 100)
  let mp := (5 * doy + 2).ediv 153
  let d := doy - (153 * mp + 2).ediv 5 + 1
  let m := mp + (if mp < 10 then 3 else -9)
  (if m ≤ 2 then y + 1 else y, m, d)

/-- Modelled from the spec: CPython's `datetime.fromtimestamp` — seconds
since the epoch to a civil datetime.  The Python library converts to the
interpreting system's local timezone; the spec pins no timezone ("treat
as a replicable but not timezone-normalized convenience formatter"), so
the model takes the UTC convention.  Sub-second parts of a float
timestamp do not reach the `%H:%M:%S` output, so the model floors. -/
def datetime_fromtimestamp (t : Int) : PyDateTime :=
  let days := t.ediv 86400
  let sod := t.emod 86400
  let c := civilFromDays days
  ⟨c.1, c.2.1, c.2.2, sod.ediv 3600, (sod.emod 3600).ediv 60, sod.emod 60⟩

/-- Zero-pad a (nonnegative) numeral to two digits, as `%H`/`%M`/`%S`/`%m`/`%d`. -/
def pad2 (n : Int) : String := (if n < 10 then "0" else "") ++ toString n

/-- Zero-pad a (nonnegative) numeral to four digits, as `%Y`. -/
def pad4 (n : Int) : String :=
  (if n < 10 then "000" else if n < 100 then "00" else if n < 1000 then "0" else "")
    ++ toString n

/-- Embedding of the `strftime` call with format `%Y-%m-%d %H:%M:%S`. -/
def strftimeYmdHMS (dt : PyDateTime) : String :=
  pad4 dt.year ++ "-" ++ pad2 dt.month ++ "-" ++ pad2 dt.day ++ " " ++
    pad2 dt.hour ++ ":" ++ pad2 dt.minute ++ ":" ++ pad2 dt.second

/-- Exactly two decimal digits to their value. -/
def parseTwo (a b : Char) : Option Nat :=
  if a.isDigit && b.isDigit then some ((a.toNat - 48) * 10 + (b.toNat - 48)) else none

/-- Split a time string at the first `+`/`-` (the start of a UTC offset),
returning the characters before it and, when a sign was found, those
after it. -/
def splitAtSign : List Char → List Char × Option (List Char)
  | [] => ([], none)
  | c :: rest =>
    if c == '+' || c == '-' then ([], some rest)
    else
      let p := splitAtSign rest
      (c :: p.1, p.2)

/-- A UTC-offset body `HH:MM` or `HH:MM:SS` (sign already stripped), and
the resulting `timezone` object in range (strictly less than 24 hours,
as CPython's `timezone` requires). -/
def tzBodyOk : List Char → Bool
  | [h1, h2, ':', m1, m2] =>
    match parseTwo h1 h2, parseTwo m1 m2 with
    | some h, some m => h * 3600 + m * 60 < 86400
    | _, _ => false
  | [h1, h2, ':', m1, m2, ':', s1, s2] =>
    match parseTwo h1 h2, parseTwo m1 m2, parseTwo s1 s2 with
    | some h, some m, some s => h * 3600 + m * 60 + s < 86400
    | _, _, _ => false
  | _ => false

/-- A run of decimal digits of the given length (a fractional-second
field of 3 or 6 digits). -/
def digitRun (n : Nat) (cs : List Char) : Bool :=
  cs.length == n && cs.all Char.isDigit

/-- The time-of-day part `HH[:MM[:SS[.fff|.ffffff]]]` (CPython's
`_parse_hh_mm_ss_ff`; the fraction does not reach the output format and
is dropped). -/
def parseTimeChars : List Char → Option (Nat × Nat × Nat)
  | [h1, h2] => (parseTwo h1 h2).map (fun h => (h, 0, 0))
  | h1 :: h2 :: ':' :: m1 :: m2 :: rest =>
    match parseTwo h1 h2, parseTwo m1 m2 with
    | some h, some m =>
      match rest with
      | [] => some (h, m, 0)
      | ':' :: s1 :: s2 :: rest2 =>
        match parseTwo s1 s2 with
        | some s =>
          match rest2 with
          | [] => some (h, m, s)
          | '.' :: frac => if digitRun 3 frac || digitRun 6 frac then some (h, m, s) else none
          | _ => none
        | none => none
      | _ => none
    | _, _ => none
  | _ => none

/-- Gregorian leap year. -/
def isLeapYear (y : Nat) : Bool := (y % 4 == 0 && y % 100 != 0) || y % 400 == 0

/-- Length of a month. -/
def daysInMonth (y m : Nat) : Nat :=
  if m == 2 then (if isLeapYear y then 29 else 28)
  else if m == 4 || m == 6 || m == 9 || m == 11 then 30
  else 31

/-- The range checks of the `datetime` constructor. -/
def datetimeFieldsOk (y mo d h mi s : Nat) : Bool :=
  1 ≤ y && y ≤ 9999 && 1 ≤ mo && mo ≤ 12 && 1 ≤ d && d ≤ daysInMonth y mo &&
    h ≤ 23 && mi ≤ 59 && s ≤ 59

/-- Modelled from the spec: CPython's `datetime.fromisoformat` (≤ 3.10,
the dialect the source targets — it pre-rewrites a trailing `Z` to
`+00:00` because `fromisoformat` of that generation rejects `Z`):
`YYYY-MM-DD`, optionally followed by one arbitrary separator character
and `HH[:MM[:SS[.fff|.ffffff]]]`, optionally followed by a UTC offset
`±HH:MM[:SS]`; the resulting fields must pass the `datetime` constructor
range checks.  Anything else raises, which the caller's bare `except`
turns into `none` here. -/
def parseIsoDatetime (s : String) : Option PyDateTime :=
  match s.toList with
  | y1 :: y2 :: y3 :: y4 :: '-' :: mo1 :: mo2 :: '-' :: d1 :: d2 :: rest =>
    match parseTwo y1 y2, parseTwo y3 y4, parseTwo mo1 mo2, parseTwo d1 d2 with
    | some yh, some yl, some mo, some d =>
      let y := yh * 100 + yl
      let build : Nat × Nat × Nat → Option PyDateTime := fun hms =>
        if datetimeFieldsOk y mo d hms.1 hms.2.1 hms.2.2 then
          some ⟨y, mo, d, hms.1, hms.2.1, hms.2.2⟩
        else none
      match rest with
      | [] => build (0, 0, 0)
      | _sep :: tchars =>
        let p := splitAtSign tchars
        let tzOk := match p.2 with
          | none => true
          | some z => tzBodyOk z
        if tzOk then
          match parseTimeChars p.1 with
          | some hms => build hms
          | none => none
        else none
    | _, _, _, _ => none
  | _ => none

/-- Replace every occurrence of the character `c` by `rep`. -/
def replaceChar (c : Char) (rep : List Char) : List Char → List Char
  | [] => []
  | a :: rest => (if a == c then rep else [a]) ++ replaceChar c rep rest

/-- Python `timestamp.replace('Z', '+00:00')`: `str.replace` with the
one-character pattern `'Z'` replaces every `Z`. -/
def replaceZ (s : String) : String := ⟨replaceChar 'Z' "+00:00".toList s.toList⟩

/-- Embedding of `format_timestamp` (app.py): a numeric timestamp (Python booleans are
`int` instances, hence the `bool` arm) is rendered through
`datetime.fromtimestamp`; a string is rewritten (`Z` → `+00:00`), parsed
with `datetime.fromisoformat` and rendered, the original string being
returned when parsing raises; anything else is `str(timestamp)`. -/
def format_timestamp : Value → String
  | Value.bool b => strftimeYmdHMS (datetime_fromtimestamp (if b then 1 else 0))
  | Value.int n => strftimeYmdHMS (datetime_fromtimestamp n)
  | Value.float q => strftimeYmdHMS (datetime_fromtimestamp q.floor)
  | Value.str s =>
    match parseIsoDatetime (replaceZ s) with
    | some dt => strftimeYmdHMS dt
    | none => s
  | v => pyStr v

/-- The searched field holds a string or is absent (the data model's
shape for the five free-text search fields). -/
def strOrMissing : Option Value → Bool
  | none => true
  | some (Value.str _) => true
  | _ => false

/-- The claim's wording of the searched text: the value of the field,
a missing field treated as the empty string. -/
def fieldText (c : Case) (f : String) : String :=
  match pyGet c f with
  | some (Value.str s) => s
  | _ => ""

/-- A concrete case for the search witness. -/
def caseAlice : Case :=
  [("caseID", Value.str "C-1"), ("patientName", Value.str "Alice Smith"),
    ("status", Value.str "PENDING_REVIEW")]

/-- A second concrete case for the search witness. -/
def caseBob : Case :=
  [("caseID", Value.str "C-2"), ("patientName", Value.str "Bob Jones"),
    ("fileName", Value.str "bob-notes.pdf"), ("status", Value.str "APPROVED")]

/-- The claim's literal reading of `safe_get` (a refinement spec written
from the spec's words, for comparison with the source's `safe_get`):
resolve the dotted path — default when a segment is absent or a
traversed value is not a structured object — and otherwise return the
resolved value with decimal normalization applied. -/
def safe_get_claimed (data : Value) (key : String) (default : Value) : Value :=
  match lookupLoop data (pySplitDot key) with
  | some v => _convert_decimals v
  | none => default

/-! ## Helper lemmas -/

theorem convertList_eq_map (xs : List Value) :
    convertList xs = xs.map _convert_decimals := by
  induction xs with
  | nil => rfl
  | cons v vs ih => simp [convertList, ih]

theorem convertPairs_eq_map (kvs : List (String × Value)) :
    convertPairs kvs = kvs.map (fun kv => (kv.1, _convert_decimals kv.2)) := by
  induction kvs with
  | nil => rfl
  | cons kv kvs ih => cases kv; simp [convertPairs, ih]

theorem splitDotAux_ne_nil (cur : List Char) (l : List Char) :
    splitDotAux cur l ≠ [] := by
  induction l generalizing cur with
  | nil => simp [splitDotAux]
  | cons c rest ih =>
    by_cases h : c == '.' <;> simp [splitDotAux, h, ih]

theorem pySplitDot_ne_nil (s : String) : pySplitDot s ≠ [] :=
  splitDotAux_ne_nil [] s.toList

theorem listAnyCongr {α : Type} (l : List α) (p q : α → Bool)
    (h : ∀ a ∈ l, p a = q a) : l.any p = l.any q := by
  induction l with
  | nil => rfl
  | cons a l ih =>
    simp only [List.any_cons, h a (by simp)]
    rw [ih (fun b hb => h b (by simp [hb]))]

theorem pyInStrList_singleton (v : Option Value) (S : String) :
    pyInStrList v [S] = pyEqStr v S := by
  cases v with
  | none => rfl
  | some w =>
    cases w <;> try rfl
    case str s =>
      simp only [pyInStrList, pyEqStr, List.any_cons, List.any_nil, Bool.or_false]
      by_cases h : S = s
      · subst h; rfl
      · rw [beq_eq_false_iff_ne.mpr h, beq_eq_false_iff_ne.mpr (Ne.symm h)]

/-! ## Claim theorems -/

/-- C9: for every case list `C`, filtering `C` with criteria in which all
fields are unset returns `C` itself: every Python truthiness guard sees
`None` and skips its comprehension, so the input list is returned as-is
(filter identity). -/
theorem filter_no_criteria_identity (cases : List Case) :
    filter_cases cases ⟨none, none, none, none⟩ = cases := rfl

/-- C10: a criterion that is present but empty (empty status set, empty
document-type set, empty priority set, or empty search string) is falsy
in Python, so its guard skips the comprehension exactly as an absent
criterion does — each empty criterion can be replaced by an unset one
without changing the result, and filtering with all four criteria
present-but-empty returns the input unchanged. -/
theorem filter_empty_criteria_identity :
    (∀ (cases : List Case) (dt pr : Option (List String)) (se : Option String),
      filter_cases cases ⟨some [], dt, pr, se⟩ = filter_cases cases ⟨none, dt, pr, se⟩) ∧
    (∀ (cases : List Case) (st pr : Option (List String)) (se : Option String),
      filter_cases cases ⟨st, some [], pr, se⟩ = filter_cases cases ⟨st, none, pr, se⟩) ∧
    (∀ (cases : List Case) (st dt : Option (List String)) (se : Option String),
      filter_cases cases ⟨st, dt, some [], se⟩ = filter_cases cases ⟨st, dt, none, se⟩) ∧
    (∀ (cases : List Case) (st dt pr : Option (List String)),
      filter_cases cases ⟨st, dt, pr, some ""⟩ = filter_cases cases ⟨st, dt, pr, none⟩) ∧
    (∀ cases : List Case, filter_cases cases ⟨some [], some [], some [], some ""⟩ = cases) :=
  ⟨fun _ _ _ _ => rfl, fun _ _ _ _ => rfl, fun _ _ _ _ => rfl, fun _ _ _ _ => rfl,
    fun _ => rfl⟩

/-- C2: filtering with criteria whose only set field is `status = {S}`
returns exactly the sublist of cases whose `status` field is the string
`S` (a missing or non-string `status` never matches), in the input's
relative order — the result is `List.filter`, which keeps order and, the
embedding being pure, the input list is not mutated. -/
theorem filter_single_status_exact (cases : List Case) (S : String) :
    filter_cases cases ⟨some [S], none, none, none⟩ =
      cases.filter (fun c => pyEqStr (pyGet c "status") S) := by
  show cases.filter (fun c => pyInStrList (pyGet c "status") [S]) = _
  exact List.filter_congr (fun c _ => pyInStrList_singleton (pyGet c "status") S)

/-- C5: `get_case_metrics` returns the list's length as `total_cases` and
the counts of cases with `status == PENDING_REVIEW`, `priority == HIGH`
and `status == APPROVED` as the other three fields; on `[]` all four
are `0`. -/
theorem get_case_metrics_counts :
    (∀ cases : List Case,
      get_case_metrics cases =
        ⟨cases.length,
          cases.countP (fun c => pyEqStr (pyGet c "status") "PENDING_REVIEW"),
          cases.countP (fun c => pyEqStr (pyGet c "priority") "HIGH"),
          cases.countP (fun c => pyEqStr (pyGet c "status") "APPROVED")⟩) ∧
    get_case_metrics [] = ⟨0, 0, 0, 0⟩ := by
  refine ⟨fun cases => ?_, rfl⟩
  simp [get_case_metrics, List.countP_eq_length_filter]

/-- C8: on any retrieval failure — `get_table` or `scan` raising, for
connectivity, a missing table or a permission error, all modelled by the
`Except.error` branch — `get_all_cases` returns the empty sequence and
logs the cause; being a total function of the outcome, it raises nothing
to its caller. -/
theorem get_all_cases_failure (e : String) :
    get_all_cases (Except.error e) = ([], ["Error fetching cases: " ++ e]) := rfl

/-- C6: decimal normalization — a decimal whose value is an integer
(zero fractional part, i.e. denominator 1, which is exactly when the
Python test `obj % 1 != 0` is false) becomes a native integer of the
same value; any other decimal becomes a native float carrying the same
rational; the conversion recurses through dicts and lists; non-decimal
values are returned unchanged; and the spec's two examples: decimal `10`
normalizes to integer `10`, decimal `10.5` to float `10.5`. -/
theorem convert_decimals_spec :
    (∀ q : ℚ, q.den = 1 →
      _convert_decimals (Value.decimal q) = Value.int q.num ∧ (q.num : ℚ) = q) ∧
    (∀ q : ℚ, q.den ≠ 1 → _convert_decimals (Value.decimal q) = Value.float q) ∧
    (∀ kvs, _convert_decimals (Value.dict kvs) =
      Value.dict (kvs.map (fun kv => (kv.1, _convert_decimals kv.2)))) ∧
    (∀ xs, _convert_decimals (Value.list xs) = Value.list (xs.map _convert_decimals)) ∧
    _convert_decimals Value.null = Value.null ∧
    (∀ b, _convert_decimals (Value.bool b) = Value.bool b) ∧
    (∀ n, _convert_decimals (Value.int n) = Value.int n) ∧
    (∀ q, _convert_decimals (Value.float q) = Value.float q) ∧
    (∀ s, _convert_decimals (Value.str s) = Value.str s) ∧
    _convert_decimals (Value.decimal 10) = Value.int 10 ∧
    _convert_decimals (Value.decimal (10.5 : ℚ)) = Value.float (10.5 : ℚ) := by
  refine ⟨fun q h => ⟨by simp [_convert_decimals, h], (Rat.den_eq_one_iff q).mp h⟩,
    fun q h => by simp [_convert_decimals, h],
    fun kvs => by simp [_convert_decimals, convertPairs_eq_map],
    fun xs => by simp [_convert_decimals, convertList_eq_map],
    rfl, fun _ => rfl, fun _ => rfl, fun _ => rfl, fun _ => rfl,
    rfl, ?_⟩
  have h : ((10.5 : ℚ)).den = 2 := by norm_num
  simp [_convert_decimals, h]

/-- Witness for `convert_decimals_spec`: the hypothesis-bearing conjuncts
applied at the spec's own examples, `10` (denominator 1) and `10.5`
(denominator 2). -/
theorem convert_decimals_spec_witness :
    ((10 : ℚ).den = 1 ∧ _convert_decimals (Value.decimal 10) = Value.int (10 : ℚ).num) ∧
    ((10.5 : ℚ).den ≠ 1 ∧ _convert_decimals (Value.decimal (10.5 : ℚ)) = Value.float (10.5 : ℚ)) :=
  ⟨⟨by norm_num, (convert_decimals_spec.1 10 (by norm_num)).1⟩,
    ⟨by norm_num, convert_decimals_spec.2.1 (10.5 : ℚ) (by norm_num)⟩⟩

theorem pyStr_of_strOrMissing (c : Case) (f : String)
    (h : strOrMissing (pyGet c f) = true) :
    pyStr (pyGetD c f (Value.str "")) = fieldText c f := by
  unfold pyGetD fieldText
  cases hv : pyGet c f with
  | none => rfl
  | some w => cases w <;> simp_all [strOrMissing, pyStr]

/-- C7: with a non-empty search term (and the searched fields being
strings or absent, as in the data model), the search criterion keeps a
case exactly when the lowercased term occurs as a substring of the
lowercased value of at least one of `patientName`, `fileName`,
`documentType`, `caseSummary`, `diagnosisDescription`, a missing field
counting as the empty string. -/
theorem search_filter_spec (cases : List Case) (term : String) (hne : term ≠ "")
    (hf : ∀ c ∈ cases, ∀ f ∈ search_fields, strOrMissing (pyGet c f) = true) :
    filter_cases cases ⟨none, none, none, some term⟩ =
      cases.filter (fun c => search_fields.any
        (fun f => strContainsSub (strToLower (fieldText c f)) (strToLower term))) := by
  have hguard : pyTruthyStr (some term) = true := by
    have hemp : term.isEmpty = false := by
      cases h : term.isEmpty
      · rfl
      · exact absurd ((String.isEmpty_iff term).mp h) hne
    simp [pyTruthyStr, hemp]
  show (if pyTruthyStr (some term) then
      cases.filter (fun c => _case_matches_search c (strToLower ((some term).getD "")))
    else cases) = _
  rw [hguard]
  simp only [if_true, Option.getD_some]
  refine List.filter_congr (fun c hc => ?_)
  unfold _case_matches_search
  exact listAnyCongr _ _ _
    (fun f hfld => by rw [pyStr_of_strOrMissing c f (hf c hc f hfld)])

/-- Witness for `search_filter_spec`: the term `"ALI"` (non-empty, and
matched case-insensitively against `"Alice Smith"`) on two concrete
cases whose searched fields are strings or absent; the filter keeps
exactly the matching case. -/
theorem search_filter_spec_witness :
    ("ALI" ≠ "") ∧
    (∀ c ∈ [caseAlice, caseBob], ∀ f ∈ search_fields, strOrMissing (pyGet c f) = true) ∧
    filter_cases [caseAlice, caseBob] ⟨none, none, none, some "ALI"⟩ =
      [caseAlice, caseBob].filter (fun c => search_fields.any
        (fun f => strContainsSub (strToLower (fieldText c f)) (strToLower "ALI"))) ∧
    filter_cases [caseAlice, caseBob] ⟨none, none, none, some "ALI"⟩ = [caseAlice] :=
  ⟨by decide, by decide,
    search_filter_spec [caseAlice, caseBob] "ALI" (by decide) (by decide),
    rfl⟩

/-- C3 counterexample: on `{a: None}` with path `"a"` and default `"X"`
the path resolves — to `None`, whose decimal normalization is `None` —
so the claim's reading returns `None`; the code returns the default
`"X"` (`safe_get` ends in `... if current is not None else default`). -/
theorem safe_get_null_counterexample :
    lookupLoop (Value.dict [("a", Value.null)]) (pySplitDot "a") = some Value.null ∧
    safe_get_claimed (Value.dict [("a", Value.null)]) "a" (Value.str "X") = Value.null ∧
    safe_get (Value.dict [("a", Value.null)]) "a" (Value.str "X") = Value.str "X" ∧
    safe_get (Value.dict [("a", Value.null)]) "a" (Value.str "X") ≠
      safe_get_claimed (Value.dict [("a", Value.null)]) "a" (Value.str "X") :=
  ⟨rfl, rfl, rfl, fun h => Value.noConfusion (show Value.str "X" = Value.null from h)⟩

/-- C3 amended: the lookup is total (never raises); a missing segment, a
non-structured traversed value — including a non-dict start — and also a
resolved `None` all yield the caller-supplied default, and any other
resolved value is returned with decimal normalization applied; the
spec's two examples hold: `{}` with path `"a.b.c"` and default `"X"`
gives `"X"`, and `{a:{b:{c:5}}}` with that path gives `5`. -/
theorem safe_get_amended :
    (∀ (data : Value) (key : String) (default : Value),
      safe_get data key default =
        match lookupLoop data (pySplitDot key) with
        | some Value.null => default
        | some v => _convert_decimals v
        | none => default) ∧
    safe_get (Value.dict []) "a.b.c" (Value.str "X") = Value.str "X" ∧
    safe_get (Value.dict [("a", Value.dict [("b", Value.dict [("c", Value.int 5)])])])
      "a.b.c" (Value.str "X") = Value.int 5 := by
  refine ⟨fun data key default => ?_, rfl, rfl⟩
  obtain ⟨k, ks, h⟩ := List.exists_cons_of_ne_nil (pySplitDot_ne_nil key)
  cases data with
  | dict kvs =>
    show (match lookupLoop (Value.dict kvs) (pySplitDot key) with
      | some Value.null => default
      | some v => _convert_decimals v
      | none => default) = _
    rw [h]
  | null => simp only [h]; rfl
  | bool b => simp only [h]; rfl
  | int n => simp only [h]; rfl
  | float q => simp only [h]; rfl
  | decimal q => simp only [h]; rfl
  | str t => simp only [h]; rfl
  | list xs => simp only [h]; rfl

/-- C1 counterexample: updating a case ID that is absent from the store
(here: any ID against the empty store) returns `True` and grows the
store by one record — the conditional-free `update_item` is an upsert —
so "returns false and leaves the store unchanged" fails on both counts. -/
theorem update_nonexistent_counterexample :
    (∀ it ∈ (⟨[]⟩ : Store).items, pyEqStr (pyGet it "caseID") "CASE-1" = false) ∧
    (update_case_status ⟨[]⟩ none "CASE-1" "APPROVED").2.1 = true ∧
    (update_case_status ⟨[]⟩ none "CASE-1" "APPROVED").1.items =
      [[("caseID", Value.str "CASE-1"), ("status", Value.str "APPROVED")]] ∧
    (⟨[]⟩ : Store).items.length = 0 ∧
    (update_case_status ⟨[]⟩ none "CASE-1" "APPROVED").1.items.length = 1 :=
  ⟨by simp, rfl, rfl, rfl, rfl⟩

/-- C1 amended: called with a case ID not present in the store, a
successful `update_case_status` returns `true` and the store gains one
record holding only the key and the new status (the conditional-free
`update_item` upsert); `false` — with the store left unchanged — arises
exactly when the store access itself fails (second conjunct). -/
theorem update_nonexistent_upserts (store : Store) (case_id new_status : String)
    (habs : ∀ it ∈ store.items, pyEqStr (pyGet it "caseID") case_id = false) :
    update_case_status store none case_id new_status =
      (⟨store.items ++ [[("caseID", Value.str case_id), ("status", Value.str new_status)]]⟩,
        true, ["Case " ++ case_id ++ " updated to " ++ new_status]) ∧
    (∀ e, update_case_status store (some e) case_id new_status =
      (store, false, ["Error updating case " ++ case_id ++ ": " ++ e])) := by
  refine ⟨?_, fun e => rfl⟩
  have hany : store.items.any (fun it => pyEqStr (pyGet it "caseID") case_id) = false :=
    List.any_eq_false.mpr (fun it hit => by simp [habs it hit])
  have hup : dynamoUpdateItemStatus store.items case_id new_status =
      store.items ++ [[("caseID", Value.str case_id), ("status", Value.str new_status)]] := by
    unfold dynamoUpdateItemStatus
    rw [hany]
    simp
  show ((⟨dynamoUpdateItemStatus store.items case_id new_status⟩ : Store), true,
    ["Case " ++ case_id ++ " updated to " ++ new_status]) = _
  rw [hup]

/-- Witness for `update_nonexistent_upserts`: the empty store contains no
record with ID `"CASE-9"`, and the update call appends exactly the
two-attribute record and returns `true`. -/
theorem update_nonexistent_upserts_witness :
    (∀ it ∈ (⟨[]⟩ : Store).items, pyEqStr (pyGet it "caseID") "CASE-9" = false) ∧
    update_case_status ⟨[]⟩ none "CASE-9" "DENIED" =
      (⟨([] : List Case) ++ [[("caseID", Value.str "CASE-9"), ("status", Value.str "DENIED")]]⟩,
        true, ["Case " ++ "CASE-9" ++ " updated to " ++ "DENIED"]) :=
  ⟨by simp, (update_nonexistent_upserts ⟨[]⟩ "CASE-9" "DENIED" (by simp)).1⟩

/-- C4: the timestamp formatter maps numeric epoch `0` to
`"1970-01-01 00:00:00"` (epoch seconds read at UTC, see
`datetime_fromtimestamp`), the ISO-8601 string `"2024-01-15T10:30:00Z"`
(trailing `Z` accepted via the `Z` → `+00:00` rewrite) to
`"2024-01-15 10:30:00"`, and returns any string the ISO parser rejects —
such as `"not-a-date"` — unchanged; a total function, it never raises. -/
theorem format_timestamp_spec :
    format_timestamp (Value.int 0) = "1970-01-01 00:00:00" ∧
    format_timestamp (Value.str "2024-01-15T10:30:00Z") = "2024-01-15 10:30:00" ∧
    format_timestamp (Value.str "not-a-date") = "not-a-date" ∧
    (∀ s : String,
      parseIsoDatetime (replaceZ s) = none → format_timestamp (Value.str s) = s) := by
  refine ⟨by decide, by decide, by decide, fun s h => ?_⟩
  show (match parseIsoDatetime (replaceZ s) with
    | some dt => strftimeYmdHMS dt
    | none => s) = s
  rw [h]

/-- Witness for `format_timestamp_spec`: `"not-a-date"` fails ISO parsing
and comes back unchanged. -/
theorem format_timestamp_spec_witness :
    parseIsoDatetime (replaceZ "not-a-date") = none ∧
    format_timestamp (Value.str "not-a-date") = "not-a-date" :=
  ⟨by decide, format_timestamp_spec.2.2.2 "not-a-date" (by decide)⟩
